import Mathlib

/-!
Verification of the FingerFlow request admission-control layer
(`backend/app/middleware/{rate_limit,auth_rate_limit,csrf_protection,
security_headers,https_redirect}.py` and the middleware wiring in
`backend/main.py`) against its natural-language specification.

Modelling conventions:
* time is integer seconds (the Python code uses `time.time()` floats; every
  property at stake is about ordering and differences of instants);
* a `defaultdict(list)` keyed store is a total function from keys to lists,
  with `[]` as the default value;
* one HTTP request is processed at a single instant `now` (the Python code
  re-reads the wall clock a few times inside one request; nothing in the
  verified properties depends on that drift);
* the `itsdangerous.URLSafeTimedSerializer` dependency is modelled as an
  idealized signer: a token records its payload, signing instant, secret and
  salt, and deserializing succeeds exactly when secret and salt match and the
  age does not exceed `max_age` (the library raises `SignatureExpired` when
  `age > max_age`, i.e. strictly greater).
-/

namespace RateLimit

/-- Configuration of `RateLimitMiddleware` (`app/config.py` defaults:
`rate_limit_enabled = True`, `rate_limit_requests = 100`,
`rate_limit_window_seconds = 60`). -/
structure Config where
  enabled : Bool
  maxRequests : Nat
  windowSeconds : Int
deriving DecidableEq

def defaultConfig : Config :=
  { enabled := true, maxRequests := 100, windowSeconds := 60 }

/-- `self.request_counts : Dict[str, list]` — a `defaultdict(list)` from client
ip to a list of `(timestamp, count)` pairs; absent keys read as `[]`. -/
abbrev Store : Type := String → List (Int × Nat)

def emptyStore : Store := fun _ => []

def setKey (st : Store) (ip : String) (l : List (Int × Nat)) : Store :=
  fun k => if k = ip then l else st k

/-- The list comprehension `[(ts, c) for ts, c in l if ts > window_start]`. -/
def pruneList (l : List (Int × Nat)) (windowStart : Int) : List (Int × Nat) :=
  l.filter (fun p => decide (windowStart < p.1))

/-- `sum(count for _, count in l)`. -/
def totalRequests (l : List (Int × Nat)) : Nat :=
  (l.map (fun p => p.2)).sum

/-- `RateLimitMiddleware._is_allowed`: prune the ip's list to the window,
count, reject when the count has reached `max_requests`, otherwise append the
current request as `(now, 1)`.  The `len(self.request_counts) > 10000`
opportunistic cleanup is elided: it only deletes keys whose pruned list is
empty, so it changes no key's in-window records. -/
def isAllowed (cfg : Config) (st : Store) (ip : String) (now : Int) :
    Bool × Store :=
  let pruned := pruneList (st ip) (now - cfg.windowSeconds)
  if cfg.maxRequests ≤ totalRequests pruned then
    (false, setKey st ip pruned)
  else
    (true, setKey st ip (pruned ++ [(now, 1)]))

/-- `RateLimitMiddleware._get_remaining`: `max(0, max_requests - total)`;
Nat subtraction is exactly the `max(0, ·)` clamp. -/
def getRemaining (cfg : Config) (st : Store) (ip : String) (now : Int) : Nat :=
  cfg.maxRequests - totalRequests (pruneList (st ip) (now - cfg.windowSeconds))

/-- Folding `_is_allowed` over a sequence of request instants for one ip. -/
def runChecks (cfg : Config) (st : Store) (ip : String) :
    List Int → List Bool × Store
  | [] => ([], st)
  | t :: ts =>
    let res := isAllowed cfg st ip t
    let rest := runChecks cfg res.2 ip ts
    (res.1 :: rest.1, rest.2)

end RateLimit

namespace AuthRateLimit

/-- The limiter key `(client_ip, endpoint_path)`. -/
structure Key where
  ip : String
  path : String
deriving DecidableEq

/-- One entry of `self.attempts[key]`: a `(timestamp, failed)` pair. -/
abbrev Attempt : Type := Int × Bool

/-- The mutable state of `AuthRateLimitMiddleware`: `self.attempts` is a
`defaultdict(list)` (absent keys read as `[]`), `self.lockouts` a plain dict
(absent keys read as `none`). -/
structure State where
  attempts : Key → List Attempt
  lockouts : Key → Option Int

def initState : State := ⟨fun _ => [], fun _ => none⟩

/-- The `self.rate_limits` table: `endpoint ↦ (max_attempts, window_seconds)`. -/
def rateLimits (path : String) : Option (Nat × Int) :=
  if path = "/auth/login" then some (5, 900)
  else if path = "/auth/register" then some (3, 3600)
  else if path = "/auth/2fa-verify" then some (5, 900)
  else if path = "/api/users/forgot-password" then some (3, 3600)
  else if path = "/api/users/reset-password" then some (3, 3600)
  else if path = "/api/users/change-password" then some (5, 1800)
  else none

def setAttempts (st : State) (k : Key) (l : List Attempt) : State :=
  { st with attempts := fun k2 => if k2 = k then l else st.attempts k2 }

def setLockout (st : State) (k : Key) (u : Int) : State :=
  { st with lockouts := fun k2 => if k2 = k then some u else st.lockouts k2 }

def removeLockout (st : State) (k : Key) : State :=
  { st with lockouts := fun k2 => if k2 = k then none else st.lockouts k2 }

/-- `[(ts, failed) for ts, failed in l if ts > window_start]`. -/
def inWindow (l : List Attempt) (windowStart : Int) : List Attempt :=
  l.filter (fun p => decide (windowStart < p.1))

/-- `sum(1 for _, failed in l if failed)`. -/
def failedCount (l : List Attempt) : Nat :=
  (l.filter (fun p => p.2)).length

/-- `min(900, 60 * (2 ** (failed_count - 3)))` (seconds; only evaluated with
`failed_count >= 3`, so the Nat subtraction never clips a meaningful value). -/
def lockoutDuration (f : Nat) : Nat :=
  min 900 (60 * 2 ^ (f - 3))

/-- `AuthRateLimitMiddleware._is_allowed`: prune the key's attempts to the
endpoint's window, write the pruned list back, reject once the count has
reached `max_attempts` — additionally entering lockout when at least 3 pruned
records are flagged failed — and otherwise append `(now, False)` and allow. -/
def isAllowed (st : State) (ip path : String) (now : Int) : Bool × State :=
  let mw := (rateLimits path).getD (100, 60)
  let k : Key := ⟨ip, path⟩
  let pruned := inWindow (st.attempts k) (now - mw.2)
  let st1 := setAttempts st k pruned
  if mw.1 ≤ pruned.length then
    if 3 ≤ failedCount pruned then
      (false, setLockout st1 k (now + (lockoutDuration (failedCount pruned) : Int)))
    else
      (false, st1)
  else
    (true, setAttempts st k (pruned ++ [(now, false)]))

/-- `AuthRateLimitMiddleware._is_locked_out`: locked while `now < lockout_until`;
an expired entry is deleted at the first lookup that observes the expiry. -/
def isLockedOut (st : State) (ip path : String) (now : Int) : Bool × State :=
  let k : Key := ⟨ip, path⟩
  match st.lockouts k with
  | none => (false, st)
  | some u => if now < u then (true, st) else (false, removeLockout st k)

/-- `AuthRateLimitMiddleware._get_remaining`: `max(0, max_attempts - count)`
over the un-pruned list filtered to the window. -/
def getRemaining (st : State) (ip path : String) (now : Int) : Nat :=
  let mw := (rateLimits path).getD (100, 60)
  mw.1 - (inWindow (st.attempts ⟨ip, path⟩) (now - mw.2)).length

/-- Mark the last element of the list as failed, keeping its timestamp:
`self.attempts[key][-1] = (last_attempt[0], True)`. -/
def markLastFailed : List Attempt → List Attempt
  | [] => []
  | [p] => [(p.1, true)]
  | p :: q :: rest => p :: markLastFailed (q :: rest)

/-- `AuthRateLimitMiddleware.record_auth_failure`: when the key has at least
one recorded attempt, flag the most recent one as failed, recount failures in
the fixed 900-second window, and enter lockout when that count is at least 3. -/
def recordAuthFailure (st : State) (ip path : String) (now : Int) : State :=
  let k : Key := ⟨ip, path⟩
  if (st.attempts k).isEmpty then st
  else
    let marked := markLastFailed (st.attempts k)
    let recentFailures :=
      (marked.filter (fun p => decide (now - 900 < p.1) && p.2)).length
    let st1 := setAttempts st k marked
    if 3 ≤ recentFailures then
      setLockout st1 k (now + (lockoutDuration recentFailures : Int))
    else st1

/-- Outcome of one pass through `AuthRateLimitMiddleware.__call__` for the
state bookkeeping (ignoring the HTTP plumbing, which `Chain.authMiddleware`
models). -/
inductive Decision where
  | untracked
  | locked
  | limited
  | allowed
deriving DecidableEq

/-- The state effect of `AuthRateLimitMiddleware.__call__`: untracked paths
pass through untouched; otherwise the lockout check runs first (possibly
deleting an expired entry) and only a non-locked request reaches
`_is_allowed`. -/
def callStep (st : State) (ip path : String) (now : Int) : Decision × State :=
  match rateLimits path with
  | none => (.untracked, st)
  | some _ =>
    let lk := isLockedOut st ip path now
    if lk.1 then (.locked, lk.2)
    else
      let al := isAllowed lk.2 ip path now
      if al.1 then (.allowed, al.2) else (.limited, al.2)

/-- An event relevant to one `AuthRateLimitMiddleware` instance: either an
HTTP request hitting `__call__`, or the business layer reporting a failed
authentication via `record_auth_failure`. -/
inductive Op where
  | call (ip path : String) (t : Int)
  | fail (ip path : String) (t : Int)

def applyOp (st : State) : Op → State
  | .call ip path t => (callStep st ip path t).2
  | .fail ip path t => recordAuthFailure st ip path t

def applyOps (st : State) : List Op → State
  | [] => st
  | op :: ops => applyOps (applyOp st op) ops

end AuthRateLimit

namespace CSRF

/-- Python truthiness for an optional string: `None` and `""` are falsy. -/
def truthy : Option String → Bool
  | none => false
  | some s => !(s == "")

/-- Idealized model of an `itsdangerous.URLSafeTimedSerializer` artifact: the
serialized payload is either `{}` (modelled `none`) or
`{"session_id": s}` (modelled `some s`), stamped with the signing instant and
the secret/salt pair that signed it.  The idealization is that signatures are
perfect: a string deserializes under a secret/salt exactly when it was
produced by `dumps` under that same secret/salt. -/
structure Token where
  sessionId : Option String
  issuedAt : Int
  secret : String
  salt : String
deriving DecidableEq

/-- Configuration of a `CSRFProtection` instance (`secret_key`,
`token_expiration`, default 3600). -/
structure Protection where
  secretKey : String
  tokenExpiration : Int
deriving DecidableEq

/-- `CSRFProtection.generate_token`:
`payload = {"session_id": session_id} if session_id else {}` — a falsy
(absent or empty) session id produces the empty payload — then
`self.serializer.dumps(payload)` with salt `"csrf-protection"`. -/
def generateToken (p : Protection) (sessionId : Option String) (now : Int) :
    Token :=
  { sessionId := if truthy sessionId then sessionId else none
    issuedAt := now
    secret := p.secretKey
    salt := "csrf-protection" }

/-- `self.serializer.loads(token, max_age=self.token_expiration)`: returns the
payload, or `none` when the signature does not verify or the age exceeds
`max_age` (itsdangerous raises `SignatureExpired` only when `age > max_age`). -/
def loads (p : Protection) (t : Token) (now : Int) : Option (Option String) :=
  if t.secret = p.secretKey ∧ t.salt = "csrf-protection" ∧
      now - t.issuedAt ≤ p.tokenExpiration then
    some t.sessionId
  else none

/-- `CSRFProtection.validate_token`: deserialize, then — only when the caller
supplied a truthy session id — fail when the token embeds a truthy session id
different from the supplied one. -/
def validateToken (p : Protection) (t : Token) (sessionId : Option String)
    (now : Int) : Bool :=
  match loads p t now with
  | none => false
  | some tokenSession =>
    if truthy sessionId then
      if truthy tokenSession && !(tokenSession == sessionId) then false
      else true
    else true

end CSRF

namespace Chain

/-- The request metadata the admission-control middlewares inspect (an ASGI
scope restricted to the consulted fields).  A header that is absent is
modelled as the empty string, matching `headers.get(key, b"").decode()`. -/
structure Request where
  method : String
  path : String
  client : Option String
  scheme : String
  host : String
  xForwardedProto : String
  xCsrfToken : String

/-- An HTTP response as assembled from the ASGI `http.response.start` /
`http.response.body` messages. -/
structure Response where
  status : Nat
  headers : List (String × String)
  body : String
deriving DecidableEq

/-- The mutable middleware state shared along one chain: the general
limiter's store and the auth limiter's state. -/
structure SysState where
  rl : RateLimit.Store
  auth : AuthRateLimit.State

/-- An ASGI application restricted to our request/response/state model. -/
abbrev Handler : Type := Request → SysState → Response × SysState

/-- `RateLimitMiddleware.__call__`: skip when disabled or for `/health` and
`/`; reject 429 when `_is_allowed` fails; otherwise forward and append the
`x-ratelimit-*` headers to the downstream response (computed from the store
that already contains the current request, as `_get_remaining` runs after
`_is_allowed` recorded it). -/
def rlMiddleware (cfg : RateLimit.Config) (now : Int) (app : Handler) :
    Handler := fun req st =>
  if !cfg.enabled then app req st
  else if req.path = "/health" ∨ req.path = "/" then app req st
  else
    let ip := req.client.getD "unknown"
    let res := RateLimit.isAllowed cfg st.rl ip now
    if res.1 then
      let out := app req { st with rl := res.2 }
      ({ out.1 with headers := out.1.headers ++
          [("x-ratelimit-limit", toString cfg.maxRequests),
           ("x-ratelimit-remaining",
             toString (RateLimit.getRemaining cfg res.2 ip now)),
           ("x-ratelimit-reset", toString (now + cfg.windowSeconds))] },
       out.2)
    else
      ({ status := 429
         headers := [("content-type", "application/json"),
                     ("retry-after", toString cfg.windowSeconds)]
         body := "\x7b\"detail\":\"Too many requests. Limit: " ++
           toString cfg.maxRequests ++ " per " ++
           toString cfg.windowSeconds ++ "s\"\x7d" },
       { st with rl := res.2 })

/-- `AuthRateLimitMiddleware.__call__`: untracked paths pass through; a locked
key is rejected 429 with `Retry-After` the remaining lockout seconds and the
`x-ratelimit-*` headers zeroed; a key over its window limit is rejected 429
with `Retry-After: window`; otherwise forward, appending the endpoint's limit
and the remaining count to the downstream response headers. -/
def authMiddleware (now : Int) (app : Handler) : Handler := fun req st =>
  match AuthRateLimit.rateLimits req.path with
  | none => app req st
  | some mw =>
    let ip := req.client.getD "unknown"
    let lk := AuthRateLimit.isLockedOut st.auth ip req.path now
    if lk.1 then
      let u := ((st.auth).lockouts ⟨ip, req.path⟩).getD 0
      let remaining := u - now
      ({ status := 429
         headers := [("content-type", "application/json"),
                     ("retry-after", toString remaining),
                     ("x-ratelimit-limit", "0"),
                     ("x-ratelimit-remaining", "0")]
         body := "\x7b\"detail\":\"Too many failed attempts. " ++
           "Account temporarily locked. Try again in " ++
           toString remaining ++ " seconds.\"\x7d" },
       { st with auth := lk.2 })
    else
      let al := AuthRateLimit.isAllowed lk.2 ip req.path now
      if !al.1 then
        ({ status := 429
           headers := [("content-type", "application/json"),
                       ("retry-after", toString mw.2)]
           body := "\x7b\"detail\":\"Too many requests. Limit: " ++
             toString mw.1 ++ " per " ++ toString (mw.2 / 60) ++
             " minutes\"\x7d" },
         { st with auth := al.2 })
      else
        let remaining := AuthRateLimit.getRemaining al.2 ip req.path now
        let out := app req { st with auth := al.2 }
        ({ out.1 with headers := out.1.headers ++
            [("x-ratelimit-limit", toString mw.1),
             ("x-ratelimit-remaining", toString remaining)] },
         out.2)

/-- Python `path.startswith(entry)` as a list-of-characters check. -/
def startsWith (entry path : String) : Bool :=
  entry.data.isPrefixOf path.data

/-- The `default_exempt` set built in `CSRFMiddleware.__init__` (no extra
`exempt_paths` are passed in `main.py`). -/
def csrfExemptPaths : List String :=
  ["/health", "/", "/docs", "/redoc", "/openapi.json",
   "/auth/login", "/auth/register", "/auth/refresh", "/auth/google/callback"]

/-- `CSRFMiddleware.__call__`: only state-changing methods are checked; a path
equal to an exempt entry, or having any exempt entry as a prefix, passes
through; a missing (empty) `X-CSRF-Token` header is rejected 403 with the
"missing or invalid" body; a header that fails `validate_token` (abstracted
as the predicate `validate`) is rejected 403 with the "invalid or expired"
body; otherwise forward. -/
def csrfMiddleware (validate : String → Bool) (enabled : Bool)
    (app : Handler) : Handler := fun req st =>
  if !enabled then app req st
  else if !(["POST", "PUT", "PATCH", "DELETE"].contains req.method) then
    app req st
  else if csrfExemptPaths.contains req.path then app req st
  else if csrfExemptPaths.any (fun e => startsWith e req.path) then app req st
  else if req.xCsrfToken == "" then
    ({ status := 403
       headers := [("content-type", "application/json")]
       body := "\x7b\"detail\":\"CSRF token missing or invalid\"\x7d" }, st)
  else if !(validate req.xCsrfToken) then
    ({ status := 403
       headers := [("content-type", "application/json")]
       body := "\x7b\"detail\":\"CSRF token invalid or expired\"\x7d" }, st)
  else app req st

/-- The constant headers `SecurityHeadersMiddleware` appends (the `server`
header is then filtered out). -/
def securityHeadersList : List (String × String) :=
  [("x-content-type-options", "nosniff"),
   ("x-frame-options", "DENY"),
   ("x-xss-protection", "1; mode=block"),
   ("strict-transport-security",
     "max-age=31536000; includeSubDomains; preload"),
   ("content-security-policy", "default-src \x27self\x27"),
   ("referrer-policy", "no-referrer-when-downgrade"),
   ("permissions-policy", "geolocation=(), microphone=()")]

/-- `SecurityHeadersMiddleware.__call__`: forwards the request unchanged and
appends the fixed security headers to the response, dropping any `server`
header.  (The long CSP/permissions strings are abbreviated; no verified claim
reads their contents.) -/
def secHeadersMiddleware (app : Handler) : Handler := fun req st =>
  let out := app req st
  ({ out.1 with
      headers := (out.1.headers ++ securityHeadersList).filter
        (fun h => !(h.1 == "server")) },
   out.2)

/-- `HTTPSRedirectMiddleware.__call__`: pass through when disabled or already
HTTPS (by scheme or `X-Forwarded-Proto`), otherwise answer 301 with a
`Location` rebuilt from host and path (query strings are not modelled; no
verified claim uses them). -/
def httpsRedirectMiddleware (enabled : Bool) (app : Handler) : Handler :=
  fun req st =>
  if !enabled then app req st
  else if req.scheme = "https" ∨ req.xForwardedProto = "https" then app req st
  else
    ({ status := 301
       headers := [("location", "https://" ++ req.host ++ req.path),
                   ("content-type", "text/plain")]
       body := "Redirecting to HTTPS" }, st)

/-- Which optional middlewares `main.py` registers (from `app/config.py`
defaults: HTTPS redirect off, the other three on; the general limiter is
always registered). -/
structure ChainConfig where
  httpsRedirectEnabled : Bool
  securityHeadersEnabled : Bool
  csrfEnabled : Bool
  authRateLimitEnabled : Bool
  rlConfig : RateLimit.Config

def defaultChainConfig : ChainConfig :=
  { httpsRedirectEnabled := false
    securityHeadersEnabled := true
    csrfEnabled := true
    authRateLimitEnabled := true
    rlConfig := RateLimit.defaultConfig }

def maybeWrap (b : Bool) (mw : Handler → Handler) (app : Handler) : Handler :=
  if b then mw app else app

/-- The middleware stack `main.py` actually builds.  `main.py` calls
`app.add_middleware` in the order CORS, HTTPS-redirect, security-headers,
CSRF, auth-rate-limit, general-rate-limit.  Starlette's `add_middleware` does
`user_middleware.insert(0, ...)` and `build_middleware_stack` wraps the app
with that list from the inside out, so the LAST middleware added becomes the
OUTERMOST.  The built stack is therefore, outermost first:
general-rate-limit → auth-rate-limit → CSRF → security-headers →
HTTPS-redirect → application — the reverse of the registration order.  (The
CORS middleware, innermost, is elided: it never short-circuits a
non-preflight request.) -/
def buildApp (cc : ChainConfig) (validate : String → Bool) (now : Int)
    (app : Handler) : Handler :=
  rlMiddleware cc.rlConfig now
    (maybeWrap cc.authRateLimitEnabled (authMiddleware now)
      (maybeWrap cc.csrfEnabled (csrfMiddleware validate true)
        (maybeWrap cc.securityHeadersEnabled secHeadersMiddleware
          (maybeWrap cc.httpsRedirectEnabled (httpsRedirectMiddleware true)
            app))))

end Chain

namespace Chain

/-- A downstream application handler that plainly answers 200. -/
def constApp : Handler := fun _ st =>
  ({ status := 200, headers := [], body := "ok" }, st)

/-- A POST to the login endpoint from client `1.2.3.4` over HTTPS, with no
CSRF token header. -/
def postLoginReq : Request :=
  { method := "POST", path := "/auth/login", client := some ("1.2.3.4")
    scheme := "https", host := "api.example", xForwardedProto := ""
    xCsrfToken := "" }

/-- A POST to `/api/sessions` from client `1.2.3.4` over HTTPS, with no CSRF
token header. -/
def postSessionsReq : Request :=
  { method := "POST", path := "/api/sessions", client := some ("1.2.3.4")
    scheme := "https", host := "api.example", xForwardedProto := ""
    xCsrfToken := "" }

/-- A system state where the key `("1.2.3.4", "/auth/login")` is locked out
until instant 100 and the general limiter's store is empty. -/
def lockedLoginState : SysState :=
  { rl := RateLimit.emptyStore
    auth := AuthRateLimit.setLockout AuthRateLimit.initState
      ⟨"1.2.3.4", "/auth/login"⟩ 100 }

end Chain

namespace AuthRateLimit

/-- A key whose records carry no failure flag and which holds no lockout
entry: the situation of "legitimate retries, zero failures". -/
def NoFailState (st : State) (k : Key) : Prop :=
  (∀ p ∈ st.attempts k, p.2 = false) ∧ st.lockouts k = none

/-- The spec's auth-lockout scenario: three admitted login attempts from one
client at instants 0, 1, 2, each immediately reported as a failed
authentication by the business layer. -/
def threeFailTrace : List Op :=
  [.call "ip" "/auth/login" 0, .fail "ip" "/auth/login" 0,
   .call "ip" "/auth/login" 1, .fail "ip" "/auth/login" 1,
   .call "ip" "/auth/login" 2, .fail "ip" "/auth/login" 2]

/-- The key the scenario exercises. -/
def loginKey : Key := ⟨"ip", "/auth/login"⟩

end AuthRateLimit

namespace CSRF

/-- A concrete `CSRFProtection` instance for witnesses: some secret, the
default 3600-second expiration. -/
def sampleProtection : Protection :=
  { secretKey := "dev-secret-key-change-in-production", tokenExpiration := 3600 }

end CSRF

namespace RateLimit

/-- A small concrete configuration for witnesses: limit 2 per 60 seconds. -/
def smallConfig : Config :=
  { enabled := true, maxRequests := 2, windowSeconds := 60 }

/-- A concrete store for witnesses: ip `c` has two requests at instants 10
and 20. -/
def twoHitStore : Store :=
  setKey emptyStore "c" [(10, 1), (20, 1)]

end RateLimit

/-- C1: the spec claims the chain composes outermost-first as HTTPS-redirect →
security-headers → CSRF → auth-lockout → general-rate-limit → application, so
that a request rejected by the auth lockout is never charged against the
general quota.  The code builds the reverse stack (Starlette's
`add_middleware` makes the last-added middleware outermost), so the general
limiter runs first: at instant 40, with the login key locked until 100 and the
general store empty, the built chain answers the lockout 429 (Retry-After 60,
zeroed `x-ratelimit` headers) while the general limiter's counter for
`1.2.3.4` has nevertheless been incremented to one recorded request — for
every downstream application and every CSRF validator, neither of which is
ever consulted. -/
theorem C1_general_limiter_charges_locked_request :
    ∀ (validate : String → Bool) (app : Chain.Handler),
      (Chain.buildApp Chain.defaultChainConfig validate 40 app
          Chain.postLoginReq Chain.lockedLoginState).1.status = 429 ∧
      (Chain.buildApp Chain.defaultChainConfig validate 40 app
          Chain.postLoginReq Chain.lockedLoginState).1.headers.contains
        ("retry-after", "60") = true ∧
      (Chain.buildApp Chain.defaultChainConfig validate 40 app
          Chain.postLoginReq Chain.lockedLoginState).1.headers.contains
        ("x-ratelimit-remaining", "0") = true ∧
      (Chain.buildApp Chain.defaultChainConfig validate 40 app
          Chain.postLoginReq Chain.lockedLoginState).2.rl "1.2.3.4"
        = [(40, 1)] := by
  intro validate app
  exact ⟨rfl, rfl, rfl, rfl⟩

/-- C2: the spec claims a state-changing request to a non-exempt path (for
example POST `/api/sessions`) with no `X-CSRF-Token` header is rejected 403
without reaching the application.  In the code the exempt set contains `"/"`
and the middleware also exempts any path that merely STARTS WITH an exempt
entry, so every path is exempt and the CSRF middleware forwards everything:
at the claimed failing input it behaves as the identity around the downstream
application, for every validator, application and state. -/
theorem C2_csrf_every_path_exempt :
    ∀ (validate : String → Bool) (app : Chain.Handler) (st : Chain.SysState),
      Chain.csrfMiddleware validate true app Chain.postSessionsReq st
        = app Chain.postSessionsReq st := by
  intro validate app st
  rfl

namespace ListWindow

/-- Filtering to a window starting at `b` after an earlier filter to a window
starting at `a ≤ b` gives the same list as filtering the original directly:
pruning during earlier checks never changes a later count. -/
theorem filter_window_stable {α : Type} (ts : α → Int) (l : List α)
    {a b : Int} (hab : a ≤ b) :
    (l.filter (fun x => decide (a < ts x))).filter
        (fun x => decide (b < ts x))
      = l.filter (fun x => decide (b < ts x)) := by
  rw [List.filter_filter]
  refine List.filter_congr ?_
  intro x _
  by_cases hb : b < ts x
  · simp [hb, lt_of_le_of_lt hab hb]
  · simp [hb]

/-- When every element stamps at or before `now`, the code's one-sided filter
`ts > now - w` coincides with the half-open-window filter
`now - w < ts ∧ ts ≤ now`. -/
theorem filter_window_halfopen {α : Type} (ts : α → Int) (l : List α)
    {now w : Int} (h : ∀ x ∈ l, ts x ≤ now) :
    l.filter (fun x => decide (now - w < ts x))
      = l.filter (fun x => decide (now - w < ts x ∧ ts x ≤ now)) := by
  refine List.filter_congr ?_
  intro x hx
  simp [h x hx]

end ListWindow

namespace RateLimit

theorem setKey_self (st : Store) (ip : String) (l : List (Int × Nat)) :
    setKey st ip l ip = l := by
  simp [setKey]

theorem pruneList_stable (l : List (Int × Nat)) {a b : Int} (hab : a ≤ b) :
    pruneList (pruneList l a) b = pruneList l b := by
  unfold pruneList
  exact ListWindow.filter_window_stable (fun p => p.1) l hab

theorem totalRequests_eq_length (l : List (Int × Nat))
    (h : ∀ p ∈ l, p.2 = 1) : totalRequests l = l.length := by
  induction l with
  | nil => rfl
  | cons p t ih =>
    have hp := h p (by simp)
    have ht : ∀ q ∈ t, q.2 = 1 := fun q hq => h q (by simp [hq])
    have := ih ht
    simp only [totalRequests, List.map_cons, List.sum_cons,
      List.length_cons] at this ⊢
    omega

end RateLimit

namespace AuthRateLimit

theorem inWindow_stable (l : List Attempt) {a b : Int} (hab : a ≤ b) :
    inWindow (inWindow l a) b = inWindow l b := by
  unfold inWindow
  exact ListWindow.filter_window_stable (fun p => p.1) l hab

@[simp] theorem setAttempts_attempts_self (st : State) (k : Key)
    (l : List Attempt) : (setAttempts st k l).attempts k = l := by
  simp [setAttempts]

@[simp] theorem setAttempts_attempts_of_ne (st : State) {k2 k : Key}
    (l : List Attempt) (h : k2 ≠ k) :
    (setAttempts st k l).attempts k2 = st.attempts k2 := by
  simp [setAttempts, h]

@[simp] theorem setAttempts_lockouts (st : State) (k : Key)
    (l : List Attempt) : (setAttempts st k l).lockouts = st.lockouts := rfl

@[simp] theorem setLockout_attempts (st : State) (k : Key) (u : Int) :
    (setLockout st k u).attempts = st.attempts := rfl

@[simp] theorem setLockout_lockouts_self (st : State) (k : Key) (u : Int) :
    (setLockout st k u).lockouts k = some u := by
  simp [setLockout]

@[simp] theorem setLockout_lockouts_of_ne (st : State) {k2 k : Key} (u : Int)
    (h : k2 ≠ k) : (setLockout st k u).lockouts k2 = st.lockouts k2 := by
  simp [setLockout, h]

@[simp] theorem removeLockout_attempts (st : State) (k : Key) :
    (removeLockout st k).attempts = st.attempts := rfl

@[simp] theorem removeLockout_lockouts_self (st : State) (k : Key) :
    (removeLockout st k).lockouts k = none := by
  simp [removeLockout]

@[simp] theorem removeLockout_lockouts_of_ne (st : State) {k2 k : Key}
    (h : k2 ≠ k) : (removeLockout st k).lockouts k2 = st.lockouts k2 := by
  simp [removeLockout, h]

theorem markLastFailed_spec (l : List Attempt) (h : l ≠ []) :
    markLastFailed l = l.dropLast ++ [((l.getLast h).1, true)] := by
  induction l with
  | nil => exact absurd rfl h
  | cons p t ih =>
    cases t with
    | nil => simp [markLastFailed]
    | cons q r =>
      have ht : q :: r ≠ [] := by simp
      simp [markLastFailed, ih ht, List.getLast_cons ht]

end AuthRateLimit

/-- C3: for every key, instant `now` and window `w`, the count computed by the
limiters' checks — the length of the auth limiter's pruned list, respectively
the summed per-entry counts of the general limiter's pruned list (every entry
is inserted with count 1) — equals the number of recorded attempts whose
timestamp lies in the half-open interval `(now - w, now]`, provided all
recorded timestamps are at most `now`; an attempt stamped at or before
`now - w` is never among the counted records; and pruning performed by a check
at any earlier instant `t ≤ now` never changes the records counted at `now`,
no matter how many checks are interposed. -/
theorem C3_window_count_correct :
    ∀ (l : List AuthRateLimit.Attempt) (g : List (Int × Nat)) (now w : Int),
      (∀ p ∈ l, p.1 ≤ now) →
      (∀ p ∈ g, p.1 ≤ now ∧ p.2 = 1) →
      (AuthRateLimit.inWindow l (now - w)).length
          = (l.filter (fun p => decide (now - w < p.1 ∧ p.1 ≤ now))).length
        ∧
      RateLimit.totalRequests (RateLimit.pruneList g (now - w))
          = (g.filter (fun p => decide (now - w < p.1 ∧ p.1 ≤ now))).length
        ∧
      (∀ p ∈ l, p.1 ≤ now - w → p ∉ AuthRateLimit.inWindow l (now - w))
        ∧
      (∀ t, t ≤ now →
        AuthRateLimit.inWindow (AuthRateLimit.inWindow l (t - w)) (now - w)
          = AuthRateLimit.inWindow l (now - w)) := by
  intro l g now w hl hg
  refine ⟨?_, ?_, ?_, ?_⟩
  · unfold AuthRateLimit.inWindow
    rw [ListWindow.filter_window_halfopen (fun p => p.1) l hl]
  · have h1 : ∀ p ∈ RateLimit.pruneList g (now - w), p.2 = 1 := by
      intro p hp
      exact (hg p (List.mem_of_mem_filter hp)).2
    rw [RateLimit.totalRequests_eq_length _ h1]
    unfold RateLimit.pruneList
    rw [ListWindow.filter_window_halfopen (fun p => p.1) g
      (fun x hx => (hg x hx).1)]
  · intro p _ hold hmem
    have := List.of_mem_filter hmem
    simp at this
    omega
  · intro t ht
    exact AuthRateLimit.inWindow_stable l (by omega)

/-- Witness for C3 at a concrete input: two auth records and two general
records at instants 3 and 9, checked at `now = 10` with window 9 — the record
at instant 3 is outside `(1, 10]` only when it is, and the counts agree. -/
theorem C3_window_count_correct_witness :
    (AuthRateLimit.inWindow [((-5 : Int), false), ((3 : Int), true)] (10 - 9)).length
        = ([((-5 : Int), false), ((3 : Int), true)].filter
            (fun p => decide (10 - 9 < p.1 ∧ p.1 ≤ 10))).length
      ∧
    RateLimit.totalRequests
        (RateLimit.pruneList [((-5 : Int), 1), ((3 : Int), 1)] (10 - 9))
        = ([((-5 : Int), 1), ((3 : Int), 1)].filter
            (fun p => decide (10 - 9 < p.1 ∧ p.1 ≤ 10))).length
      ∧
    (∀ p ∈ [((-5 : Int), false), ((3 : Int), true)], p.1 ≤ 10 - 9 →
      p ∉ AuthRateLimit.inWindow [((-5 : Int), false), ((3 : Int), true)] (10 - 9))
      ∧
    (∀ t, t ≤ (10 : Int) →
      AuthRateLimit.inWindow
          (AuthRateLimit.inWindow [((-5 : Int), false), ((3 : Int), true)] (t - 9))
          (10 - 9)
        = AuthRateLimit.inWindow [((-5 : Int), false), ((3 : Int), true)] (10 - 9)) :=
  C3_window_count_correct [((-5 : Int), false), ((3 : Int), true)]
    [((-5 : Int), 1), ((3 : Int), 1)] 10 9
    (by decide) (by decide)

/-- C4: both escalation sites — `record_auth_failure` (counting failures over
the last 900 seconds of the marked list) and `_is_allowed` (counting failed
flags among the pruned window records) — set the lockout expiry to
`now + min(900, 60·2^(f-3))` when the failure count `f` is at least 3; the
formula evaluates to 60 seconds for `f = 3`, 120 for `f = 4`, 240 for
`f = 5`, and is capped at 900 seconds for every `f ≥ 7` (so in particular for
10 or more failures). -/
theorem C4_lockout_backoff_formula :
    ∀ (st : AuthRateLimit.State) (ip path : String) (now : Int),
      (st.attempts ⟨ip, path⟩ ≠ [] →
        ∀ f, f = ((AuthRateLimit.markLastFailed
              (st.attempts ⟨ip, path⟩)).filter
              (fun p => decide (now - 900 < p.1) && p.2)).length →
          3 ≤ f →
          (AuthRateLimit.recordAuthFailure st ip path now).lockouts
              ⟨ip, path⟩
            = some (now + (min 900 (60 * 2 ^ (f - 3)) : Nat)))
      ∧
      (∀ (m : Nat) (w : Int), (AuthRateLimit.rateLimits path).getD (100, 60)
            = (m, w) →
        m ≤ (AuthRateLimit.inWindow (st.attempts ⟨ip, path⟩)
              (now - w)).length →
        ∀ f, f = AuthRateLimit.failedCount
              (AuthRateLimit.inWindow (st.attempts ⟨ip, path⟩) (now - w)) →
          3 ≤ f →
          (AuthRateLimit.isAllowed st ip path now).2.lockouts ⟨ip, path⟩
            = some (now + (min 900 (60 * 2 ^ (f - 3)) : Nat)))
      ∧ AuthRateLimit.lockoutDuration 3 = 60
      ∧ AuthRateLimit.lockoutDuration 4 = 120
      ∧ AuthRateLimit.lockoutDuration 5 = 240
      ∧ (∀ g, 7 ≤ g → AuthRateLimit.lockoutDuration g = 900) := by
  intro st ip path now
  refine ⟨?_, ?_, by decide, by decide, by decide, ?_⟩
  · intro hne f hf h3
    have hemp : (st.attempts ⟨ip, path⟩).isEmpty = false := by
      cases h : st.attempts ⟨ip, path⟩ with
      | nil => exact absurd h hne
      | cons a t => simp
    subst hf
    simp only [AuthRateLimit.recordAuthFailure, hemp, Bool.false_eq_true,
      if_false, if_pos h3]
    simp [AuthRateLimit.lockoutDuration, Nat.cast_min]
  · intro m w hmw hover f hf h3
    subst hf
    simp only [AuthRateLimit.isAllowed, hmw] at hover ⊢
    simp only [if_pos hover, if_pos h3]
    simp [AuthRateLimit.lockoutDuration, Nat.cast_min]
  · intro g hg
    have h1 : (16 : Nat) ≤ 2 ^ (g - 3) := by
      calc (16 : Nat) = 2 ^ 4 := by norm_num
      _ ≤ 2 ^ (g - 3) := Nat.pow_le_pow_right (by norm_num) (by omega)
    have h2 : (900 : Nat) ≤ 60 * 2 ^ (g - 3) := by omega
    simp [AuthRateLimit.lockoutDuration, Nat.min_eq_left h2]

/-- Witness for C4: a login key holding five attempts, three of them already
failed.  `record_auth_failure` (which flags the last attempt, giving 4 recent
failures) sets a 120-second lockout, `_is_allowed` (3 failed flags among the 5
window records) sets a 60-second lockout, and the cap applies at 10
failures. -/
theorem C4_lockout_backoff_formula_witness :
    (AuthRateLimit.recordAuthFailure
        (AuthRateLimit.setAttempts AuthRateLimit.initState
          AuthRateLimit.loginKey
          [(0, true), (1, true), (2, true), (3, false), (4, false)])
        "ip" "/auth/login" 10).lockouts ⟨"ip", "/auth/login"⟩
      = some (10 + (min 900 (60 * 2 ^ (4 - 3)) : Nat))
    ∧
    (AuthRateLimit.isAllowed
        (AuthRateLimit.setAttempts AuthRateLimit.initState
          AuthRateLimit.loginKey
          [(0, true), (1, true), (2, true), (3, false), (4, false)])
        "ip" "/auth/login" 10).2.lockouts ⟨"ip", "/auth/login"⟩
      = some (10 + (min 900 (60 * 2 ^ (3 - 3)) : Nat))
    ∧ AuthRateLimit.lockoutDuration 10 = 900 := by
  have h := C4_lockout_backoff_formula
    (AuthRateLimit.setAttempts AuthRateLimit.initState AuthRateLimit.loginKey
      [(0, true), (1, true), (2, true), (3, false), (4, false)])
    "ip" "/auth/login" 10
  exact ⟨h.1 (by decide) 4 (by decide) (by decide),
    h.2.1 5 900 (by decide) (by decide) 3 (by decide) (by decide),
    h.2.2.2.2.2 10 (by decide)⟩

/-- C5: for a key with at least one recorded attempt, `record_auth_failure`
rewrites the attempt list so that the most recent record keeps its timestamp
but is flagged failed while all earlier records are untouched, leaves every
other key's attempts and lockouts unchanged, and sets a lockout entry
(expiring after the backoff duration) precisely when the recomputed count of
failed records over the last 900 seconds is at least 3 — otherwise the key's
lockout entry is exactly what it was; in the spec's scenario of repeated
failed logins, the third reported failure (at instant 2) sets the 60-second
lockout `some (2 + 60)`. -/
theorem C5_record_auth_failure_spec :
    (∀ (st : AuthRateLimit.State) (ip path : String) (now : Int)
      (h : st.attempts ⟨ip, path⟩ ≠ []),
      AuthRateLimit.markLastFailed (st.attempts ⟨ip, path⟩)
          = (st.attempts ⟨ip, path⟩).dropLast
            ++ [(((st.attempts ⟨ip, path⟩).getLast h).1, true)]
        ∧
      (AuthRateLimit.recordAuthFailure st ip path now).attempts ⟨ip, path⟩
          = AuthRateLimit.markLastFailed (st.attempts ⟨ip, path⟩)
        ∧
      (∀ k2, k2 ≠ (⟨ip, path⟩ : AuthRateLimit.Key) →
        (AuthRateLimit.recordAuthFailure st ip path now).attempts k2
            = st.attempts k2
          ∧ (AuthRateLimit.recordAuthFailure st ip path now).lockouts k2
            = st.lockouts k2)
        ∧
      (AuthRateLimit.recordAuthFailure st ip path now).lockouts ⟨ip, path⟩
          = (if 3 ≤ ((AuthRateLimit.markLastFailed
                (st.attempts ⟨ip, path⟩)).filter
                (fun p => decide (now - 900 < p.1) && p.2)).length
             then some (now + (AuthRateLimit.lockoutDuration
                 ((AuthRateLimit.markLastFailed
                   (st.attempts ⟨ip, path⟩)).filter
                   (fun p => decide (now - 900 < p.1) && p.2)).length : Int))
             else st.lockouts ⟨ip, path⟩))
    ∧
    (AuthRateLimit.applyOps AuthRateLimit.initState
        AuthRateLimit.threeFailTrace).lockouts AuthRateLimit.loginKey
      = some (2 + 60) := by
  constructor
  · intro st ip path now h
    have hemp : (st.attempts ⟨ip, path⟩).isEmpty = false := by
      cases hh : st.attempts ⟨ip, path⟩ with
      | nil => exact absurd hh h
      | cons a t => simp
    refine ⟨AuthRateLimit.markLastFailed_spec _ h, ?_, ?_, ?_⟩
    · by_cases h3 : 3 ≤ ((AuthRateLimit.markLastFailed
          (st.attempts ⟨ip, path⟩)).filter
          (fun p => decide (now - 900 < p.1) && p.2)).length
      · simp [AuthRateLimit.recordAuthFailure, hemp, h3]
      · simp [AuthRateLimit.recordAuthFailure, hemp, h3]
    · intro k2 hk2
      by_cases h3 : 3 ≤ ((AuthRateLimit.markLastFailed
          (st.attempts ⟨ip, path⟩)).filter
          (fun p => decide (now - 900 < p.1) && p.2)).length
      · exact ⟨by simp [AuthRateLimit.recordAuthFailure, hemp, h3, hk2],
          by simp [AuthRateLimit.recordAuthFailure, hemp, h3, hk2]⟩
      · exact ⟨by simp [AuthRateLimit.recordAuthFailure, hemp, h3, hk2],
          by simp [AuthRateLimit.recordAuthFailure, hemp, h3, hk2]⟩
    · by_cases h3 : 3 ≤ ((AuthRateLimit.markLastFailed
          (st.attempts ⟨ip, path⟩)).filter
          (fun p => decide (now - 900 < p.1) && p.2)).length
      · simp [AuthRateLimit.recordAuthFailure, hemp, h3]
      · simp [AuthRateLimit.recordAuthFailure, hemp, h3]
  · decide

/-- Witness for C5: a key holding two attempts, the older already failed; the
report flags the most recent one and the nonemptiness hypothesis holds. -/
theorem C5_record_auth_failure_spec_witness :
    (AuthRateLimit.setAttempts AuthRateLimit.initState AuthRateLimit.loginKey
        [(0, true), (1, false)]).attempts ⟨"ip", "/auth/login"⟩ ≠ []
    ∧
    (AuthRateLimit.recordAuthFailure
        (AuthRateLimit.setAttempts AuthRateLimit.initState
          AuthRateLimit.loginKey [(0, true), (1, false)])
        "ip" "/auth/login" 5).attempts ⟨"ip", "/auth/login"⟩
      = AuthRateLimit.markLastFailed
          ((AuthRateLimit.setAttempts AuthRateLimit.initState
            AuthRateLimit.loginKey [(0, true), (1, false)]).attempts
            ⟨"ip", "/auth/login"⟩) :=
  ⟨by decide,
   (C5_record_auth_failure_spec.1
     (AuthRateLimit.setAttempts AuthRateLimit.initState AuthRateLimit.loginKey
       [(0, true), (1, false)])
     "ip" "/auth/login" 5 (by decide)).2.1⟩

/-- C6: while a tracked key holds a lockout entry `some u` with `now < u`,
the auth middleware answers exactly the lockout rejection — status 429,
`Retry-After` equal to the remaining `u - now` seconds, `x-ratelimit-limit`
and `x-ratelimit-remaining` both `"0"` — and returns the system state
entirely unchanged (in particular the key's attempt list: no window capacity
is consumed), for every downstream application; at such an instant
`_is_locked_out` keeps the entry (`(true, st)` — never removed before
expiry), and at any instant with `u ≤ now` the same lookup removes the entry
and reports not-locked, after which requests are evaluated against the
sliding window again. -/
theorem C6_lockout_precedence :
    ∀ (st : Chain.SysState) (req : Chain.Request) (app : Chain.Handler)
      (now u : Int) (mw : Nat × Int),
      AuthRateLimit.rateLimits req.path = some mw →
      st.auth.lockouts ⟨req.client.getD "unknown", req.path⟩ = some u →
      (now < u →
        Chain.authMiddleware now app req st
          = ({ status := 429
               headers := [("content-type", "application/json"),
                           ("retry-after", toString (u - now)),
                           ("x-ratelimit-limit", "0"),
                           ("x-ratelimit-remaining", "0")]
               body := "\x7b\"detail\":\"Too many failed attempts. " ++
                 "Account temporarily locked. Try again in " ++
                 toString (u - now) ++ " seconds.\"\x7d" }, st))
      ∧ (now < u →
          AuthRateLimit.isLockedOut st.auth (req.client.getD "unknown")
            req.path now = (true, st.auth))
      ∧ (u ≤ now →
          AuthRateLimit.isLockedOut st.auth (req.client.getD "unknown")
            req.path now
            = (false, AuthRateLimit.removeLockout st.auth
                ⟨req.client.getD "unknown", req.path⟩)) := by
  intro st req app now u mw hmw hlock
  refine ⟨?_, ?_, ?_⟩
  · intro hlt
    simp only [Chain.authMiddleware, hmw, AuthRateLimit.isLockedOut, hlock,
      if_pos hlt, Option.getD_some]
    rfl
  · intro hlt
    simp only [AuthRateLimit.isLockedOut, hlock, if_pos hlt]
  · intro hle
    simp only [AuthRateLimit.isLockedOut, hlock, if_neg (not_lt.mpr hle)]

/-- Witness for C6 at the locked fixture: locked until 100 and probed at 40
(still locked, rejected with Retry-After 60 and state untouched) and at 100
(entry removed at exactly the expiry instant). -/
theorem C6_lockout_precedence_witness :
    (Chain.authMiddleware 40 Chain.constApp Chain.postLoginReq
        Chain.lockedLoginState
      = ({ status := 429
           headers := [("content-type", "application/json"),
                       ("retry-after", toString ((100 : Int) - 40)),
                       ("x-ratelimit-limit", "0"),
                       ("x-ratelimit-remaining", "0")]
           body := "\x7b\"detail\":\"Too many failed attempts. " ++
             "Account temporarily locked. Try again in " ++
             toString ((100 : Int) - 40) ++ " seconds.\"\x7d" },
         Chain.lockedLoginState))
    ∧
    AuthRateLimit.isLockedOut Chain.lockedLoginState.auth "1.2.3.4"
        "/auth/login" 100
      = (false, AuthRateLimit.removeLockout Chain.lockedLoginState.auth
          ⟨"1.2.3.4", "/auth/login"⟩) :=
  ⟨(C6_lockout_precedence Chain.lockedLoginState Chain.postLoginReq
      Chain.constApp 40 100 (5, 900) (by decide) rfl).1 (by decide),
   (C6_lockout_precedence Chain.lockedLoginState Chain.postLoginReq
      Chain.constApp 100 100 (5, 900) (by decide) rfl).2.2 (by decide)⟩

namespace RateLimit

/-- An over-limit check rejects and writes back exactly the pruned list: the
rejected request itself is not recorded. -/
theorem isAllowed_of_over (cfg : Config) (st : Store) (ip : String)
    (now : Int)
    (h : cfg.maxRequests
      ≤ totalRequests (pruneList (st ip) (now - cfg.windowSeconds))) :
    isAllowed cfg st ip now
      = (false, setKey st ip (pruneList (st ip) (now - cfg.windowSeconds))) := by
  simp [isAllowed, h]

/-- Over a nondecreasing sequence of check instants at each of which the
ORIGINAL store is already at the limit, every check is rejected, and the
pruned window content at any later instant is exactly what it would have been
without those checks: rejections record nothing. -/
theorem runChecks_all_rejected (cfg : Config) (ip : String) :
    ∀ (ts : List Int) (st : Store),
      (∀ t ∈ ts, cfg.maxRequests
        ≤ totalRequests (pruneList (st ip) (t - cfg.windowSeconds))) →
      ts.Pairwise (· ≤ ·) →
      (runChecks cfg st ip ts).1 = List.replicate ts.length false ∧
      ∀ n2, (∀ t ∈ ts, t ≤ n2) →
        pruneList ((runChecks cfg st ip ts).2 ip) (n2 - cfg.windowSeconds)
          = pruneList (st ip) (n2 - cfg.windowSeconds) := by
  intro ts
  induction ts with
  | nil => exact fun st _ _ => ⟨rfl, fun _ _ => rfl⟩
  | cons t rest ih =>
    intro st hover hpw
    have h0 := hover t (by simp)
    have hrej := isAllowed_of_over cfg st ip t h0
    have hhead : ∀ t2 ∈ rest, t ≤ t2 := (List.pairwise_cons.mp hpw).1
    have htail : rest.Pairwise (· ≤ ·) := (List.pairwise_cons.mp hpw).2
    have hst2 : (setKey st ip (pruneList (st ip) (t - cfg.windowSeconds))) ip
        = pruneList (st ip) (t - cfg.windowSeconds) := setKey_self _ _ _
    have hover2 : ∀ t2 ∈ rest, cfg.maxRequests ≤ totalRequests
        (pruneList ((setKey st ip (pruneList (st ip)
          (t - cfg.windowSeconds))) ip) (t2 - cfg.windowSeconds)) := by
      intro t2 ht2
      rw [hst2, pruneList_stable _ (by have := hhead t2 ht2; omega)]
      exact hover t2 (by simp [ht2])
    obtain ⟨ih1, ih2⟩ := ih _ hover2 htail
    constructor
    · simp only [runChecks, hrej, ih1, List.length_cons, List.replicate_succ]
    · intro n2 hn2
      have hstep : pruneList ((runChecks cfg (setKey st ip (pruneList (st ip)
          (t - cfg.windowSeconds))) ip rest).2 ip) (n2 - cfg.windowSeconds)
          = pruneList ((setKey st ip (pruneList (st ip)
              (t - cfg.windowSeconds))) ip) (n2 - cfg.windowSeconds) :=
        ih2 n2 (fun t2 ht2 => hn2 t2 (by simp [ht2]))
      simp only [runChecks, hrej]
      rw [hstep, hst2, pruneList_stable _ (by have := hn2 t (by simp); omega)]

end RateLimit

/-- C7: for the general limiter and a client identity at the limit — the
summed in-window count of its original records reaches `max_requests` — every
check at a nondecreasing sequence of instants each still inside such a window
is rejected; a rejected check writes back only the pruned list, never a new
record, so the window content observed at any later instant is exactly that
of the original records (rejections never extend the throttled period), and
once the window has fully elapsed (the original in-window count at a later
instant is zero) the next check is allowed (for a positive limit); at the
middleware level an over-limit request is answered 429 with
`Retry-After: window_seconds` and nothing recorded. -/
theorem C7_monotone_throttling :
    ∀ (cfg : RateLimit.Config) (st : RateLimit.Store) (ip : String)
      (ts : List Int),
      (∀ t ∈ ts, cfg.maxRequests
        ≤ RateLimit.totalRequests (RateLimit.pruneList (st ip)
            (t - cfg.windowSeconds))) →
      ts.Pairwise (· ≤ ·) →
      ((RateLimit.runChecks cfg st ip ts).1
          = List.replicate ts.length false)
      ∧
      (∀ n2, (∀ t ∈ ts, t ≤ n2) →
        RateLimit.pruneList ((RateLimit.runChecks cfg st ip ts).2 ip)
            (n2 - cfg.windowSeconds)
          = RateLimit.pruneList (st ip) (n2 - cfg.windowSeconds)
        ∧
        (0 < cfg.maxRequests →
          RateLimit.totalRequests (RateLimit.pruneList (st ip)
              (n2 - cfg.windowSeconds)) = 0 →
          (RateLimit.isAllowed cfg (RateLimit.runChecks cfg st ip ts).2
              ip n2).1 = true))
      ∧
      (∀ (req : Chain.Request) (app : Chain.Handler) (sys : Chain.SysState)
          (now : Int),
        cfg.enabled = true → req.path ≠ "/health" → req.path ≠ "/" →
        cfg.maxRequests ≤ RateLimit.totalRequests (RateLimit.pruneList
            (sys.rl (req.client.getD "unknown"))
            (now - cfg.windowSeconds)) →
        (Chain.rlMiddleware cfg now app req sys).1.status = 429
          ∧ (Chain.rlMiddleware cfg now app req sys).1.headers.contains
              ("retry-after", toString cfg.windowSeconds) = true
          ∧ (Chain.rlMiddleware cfg now app req sys).2.rl
              = RateLimit.setKey sys.rl (req.client.getD "unknown")
                  (RateLimit.pruneList
                    (sys.rl (req.client.getD "unknown"))
                    (now - cfg.windowSeconds))) := by
  intro cfg st ip ts hover hpw
  obtain ⟨h1, h2⟩ := RateLimit.runChecks_all_rejected cfg ip ts st hover hpw
  refine ⟨h1, ?_, ?_⟩
  · intro n2 hn2
    refine ⟨h2 n2 hn2, ?_⟩
    intro hpos hzero
    have hfinal := h2 n2 hn2
    simp only [RateLimit.isAllowed, hfinal, hzero]
    have : ¬ cfg.maxRequests ≤ 0 := by omega
    simp [this]
  · intro req app sys now hen hph hpr hov
    have hrej := RateLimit.isAllowed_of_over cfg sys.rl
      (req.client.getD "unknown") now hov
    have hnb : ¬ (req.path = "/health" ∨ req.path = "/") := by
      intro hc
      cases hc with
      | inl h => exact hph h
      | inr h => exact hpr h
    refine ⟨?_, ?_, ?_⟩ <;>
      simp [Chain.rlMiddleware, hen, hnb, hrej]

/-- Witness for C7 with limit 2 per 60 seconds and ip `c` already holding two
in-window requests (instants 10 and 20): checks at 30 and 50 are both
rejected, at instant 100 the window has fully elapsed and the check is
allowed, and the middleware answers an over-limit request with 429 and
records nothing. -/
theorem C7_monotone_throttling_witness :
    (RateLimit.runChecks RateLimit.smallConfig RateLimit.twoHitStore "c"
        [30, 50]).1 = List.replicate 2 false
    ∧
    RateLimit.pruneList ((RateLimit.runChecks RateLimit.smallConfig
          RateLimit.twoHitStore "c" [30, 50]).2 "c")
        (100 - RateLimit.smallConfig.windowSeconds)
      = RateLimit.pruneList (RateLimit.twoHitStore "c")
          (100 - RateLimit.smallConfig.windowSeconds)
    ∧
    (RateLimit.isAllowed RateLimit.smallConfig
        (RateLimit.runChecks RateLimit.smallConfig RateLimit.twoHitStore "c"
          [30, 50]).2 "c" 100).1 = true
    ∧
    (Chain.rlMiddleware RateLimit.smallConfig 30 Chain.constApp
        { method := "GET", path := "/api/x", client := some ("c")
          scheme := "https", host := "h", xForwardedProto := ""
          xCsrfToken := "" }
        { rl := RateLimit.twoHitStore, auth := AuthRateLimit.initState
          }).1.status = 429 := by
  have h := C7_monotone_throttling RateLimit.smallConfig RateLimit.twoHitStore
    "c" [30, 50] (by decide) (by decide)
  exact ⟨h.1, (h.2.1 100 (by decide)).1,
    (h.2.1 100 (by decide)).2 (by decide) (by decide),
    (h.2.2
      { method := "GET", path := "/api/x", client := some ("c")
        scheme := "https", host := "h", xForwardedProto := ""
        xCsrfToken := "" }
      Chain.constApp
      { rl := RateLimit.twoHitStore, auth := AuthRateLimit.initState }
      30 rfl (by decide) (by decide) (by decide)).1⟩

namespace CSRF

/-- Deserializing a token produced by `generate_token` under the same
instance succeeds while the age is within `token_expiration`, yielding the
embedded payload. -/
theorem loads_generate (p : Protection) (s : Option String) (now now2 : Int)
    (h : now2 - now ≤ p.tokenExpiration) :
    loads p (generateToken p s now) now2
      = some (if truthy s then s else none) := by
  simp [loads, generateToken, h]

/-- Deserializing fails once strictly more than `token_expiration` seconds
have passed (itsdangerous raises `SignatureExpired` for `age > max_age`). -/
theorem loads_generate_expired (p : Protection) (s : Option String)
    (now now2 : Int) (h : p.tokenExpiration < now2 - now) :
    loads p (generateToken p s now) now2 = none := by
  have h2 : ¬ (now2 - now ≤ p.tokenExpiration) := not_le.mpr h
  simp [loads, generateToken, h2]

/-- Round trip with the same session id validates while the age is within
the expiration. -/
theorem validate_generate_same (p : Protection) (s : Option String)
    (now now2 : Int) (h : now2 - now ≤ p.tokenExpiration) :
    validateToken p (generateToken p s now) s now2 = true := by
  have hl := loads_generate p s now now2 h
  cases hb : truthy s with
  | true => simp [validateToken, hl, hb]
  | false => simp [validateToken, hl, hb]

/-- A token issued with a falsy session id validates against every supplied
session id while the age is within the expiration. -/
theorem validate_generate_unbound (p : Protection) (s s2 : Option String)
    (now now2 : Int) (hs : truthy s = false)
    (h : now2 - now ≤ p.tokenExpiration) :
    validateToken p (generateToken p s now) s2 now2 = true := by
  have hl := loads_generate p s now now2 h
  cases hb : truthy s2 with
  | true =>
    have hnone : truthy (none : Option String) = false := rfl
    simp [validateToken, hl, hs, hb, hnone]
  | false => simp [validateToken, hl, hs, hb]

end CSRF

/-- C8 counterexample: the claim says `validate_token` returns false once the
configured max-age seconds have elapsed since issuance.  At the instant where
exactly `token_expiration = 3600` seconds have elapsed, the token issued at
instant 0 still validates: itsdangerous only rejects when the age strictly
exceeds `max_age`. -/
theorem C8_expiry_boundary_counterexample :
    CSRF.validateToken CSRF.sampleProtection
      (CSRF.generateToken CSRF.sampleProtection none 0) none 3600 = true := by
  decide

/-- C8 (amended): for every session id `s` (including null) and positive
configured max-age, the round trip `validate_token(generate_token(s), s)` is
true immediately after issuance; `validate_token` returns false once STRICTLY
MORE than the configured max-age seconds have elapsed since issuance (at
exactly max-age it still validates); it returns false whenever a truthy
supplied session id differs from a truthy embedded one (while unexpired);
and a token issued without a session id validates against any supplied
session id (while unexpired). -/
theorem C8_csrf_roundtrip_amended :
    ∀ (p : CSRF.Protection) (s : Option String) (now : Int),
      0 < p.tokenExpiration →
      (CSRF.validateToken p (CSRF.generateToken p s now) s now = true)
      ∧ (∀ now2 s2, p.tokenExpiration < now2 - now →
          CSRF.validateToken p (CSRF.generateToken p s now) s2 now2 = false)
      ∧ (∀ now2 a b, a ≠ "" → b ≠ "" → a ≠ b →
          now2 - now ≤ p.tokenExpiration →
          CSRF.validateToken p (CSRF.generateToken p (some a) now)
            (some b) now2 = false)
      ∧ (∀ now2 s2, now2 - now ≤ p.tokenExpiration →
          CSRF.validateToken p (CSRF.generateToken p none now) s2 now2
            = true) := by
  intro p s now hpos
  refine ⟨?_, ?_, ?_, ?_⟩
  · exact CSRF.validate_generate_same p s now now (by omega)
  · intro now2 s2 hexp
    simp [CSRF.validateToken, CSRF.loads_generate_expired p s now now2 hexp]
  · intro now2 a b ha hb hab hage
    have hta : CSRF.truthy (some a) = true := by simp [CSRF.truthy, ha]
    have htb : CSRF.truthy (some b) = true := by simp [CSRF.truthy, hb]
    simp [CSRF.validateToken,
      CSRF.loads_generate p (some a) now now2 hage, hta, htb, hab]
  · intro now2 s2 hage
    exact CSRF.validate_generate_unbound p none s2 now now2 rfl hage

/-- Witness for C8 (amended) at concrete inputs: immediate round trip with
session id `alice`, rejection 6400 seconds after issuance, rejection of a
`bob` token supplied as `alice` inside the window, and acceptance of an
unbound token by `alice` inside the window. -/
theorem C8_csrf_roundtrip_amended_witness :
    (CSRF.validateToken CSRF.sampleProtection
        (CSRF.generateToken CSRF.sampleProtection (some ("alice")) 0)
        (some ("alice")) 0 = true)
    ∧ (CSRF.validateToken CSRF.sampleProtection
        (CSRF.generateToken CSRF.sampleProtection (some ("alice")) 0)
        none 6400 = false)
    ∧ (CSRF.validateToken CSRF.sampleProtection
        (CSRF.generateToken CSRF.sampleProtection (some ("alice")) 0)
        (some ("bob")) 100 = false)
    ∧ (CSRF.validateToken CSRF.sampleProtection
        (CSRF.generateToken CSRF.sampleProtection none 0)
        (some ("alice")) 100 = true) := by
  have h := C8_csrf_roundtrip_amended CSRF.sampleProtection (some ("alice")) 0
    (by decide)
  exact ⟨h.1, h.2.1 6400 none (by decide),
    h.2.2.1 100 "alice" "bob" (by decide) (by decide) (by decide) (by decide),
    h.2.2.2 100 (some ("alice")) (by decide)⟩

/-- C10: at the `CSRFProtection` interface an empty-string session id behaves
exactly like an absent one, because binding is decided by Python truthiness:
`generate_token("")` produces literally the same token as `generate_token(None)`
(the empty payload, embedding no session id), which — while unexpired —
validates against every supplied session id; `validate_token(token, "")`
equals `validate_token(token, None)` for every token (the binding check is
skipped entirely), and in particular a caller supplying the empty string
accepts — while unexpired — a token bound to any other session id. -/
theorem C10_empty_session_binding :
    ∀ (p : CSRF.Protection) (t : CSRF.Token) (now : Int),
      (CSRF.generateToken p (some ("")) now
        = CSRF.generateToken p none now)
      ∧ (CSRF.validateToken p t (some ("")) now
        = CSRF.validateToken p t none now)
      ∧ (∀ now2 s2, now2 - now ≤ p.tokenExpiration →
          CSRF.validateToken p (CSRF.generateToken p (some ("")) now)
            s2 now2 = true)
      ∧ (∀ now2 s, s ≠ "" → now2 - now ≤ p.tokenExpiration →
          CSRF.validateToken p (CSRF.generateToken p (some s) now)
            (some ("")) now2 = true) := by
  intro p t now
  refine ⟨rfl, ?_, ?_, ?_⟩
  · cases hl : CSRF.loads p t now with
    | none => simp [CSRF.validateToken, hl]
    | some x => simp [CSRF.validateToken, hl, CSRF.truthy]
  · intro now2 s2 hage
    exact CSRF.validate_generate_unbound p (some ("")) s2 now now2 rfl hage
  · intro now2 s hs hage
    have hl := CSRF.loads_generate p (some s) now now2 hage
    simp [CSRF.validateToken, hl, CSRF.truthy]

/-- Witness for C10: the empty-string caller accepts a token bound to session
`alice` (within the window), and the unbound empty-string token is accepted
by `bob`. -/
theorem C10_empty_session_binding_witness :
    (CSRF.validateToken CSRF.sampleProtection
        (CSRF.generateToken CSRF.sampleProtection (some ("")) 0)
        (some ("bob")) 5 = true)
    ∧ (CSRF.validateToken CSRF.sampleProtection
        (CSRF.generateToken CSRF.sampleProtection (some ("alice")) 0)
        (some ("")) 5 = true) := by
  have h := C10_empty_session_binding CSRF.sampleProtection
    (CSRF.generateToken CSRF.sampleProtection none 0) 0
  exact ⟨h.2.2.1 5 (some ("bob")) (by decide),
    h.2.2.2 5 "alice" (by decide) (by decide)⟩

namespace AuthRateLimit

theorem failedCount_of_noFail (l : List Attempt)
    (h : ∀ p ∈ l, p.2 = false) : failedCount l = 0 := by
  have hnil : l.filter (fun p => p.2) = [] := by
    induction l with
    | nil => rfl
    | cons a t ih =>
      have ha := h a (by simp)
      have ht : ∀ q ∈ t, q.2 = false :=
        fun q hq => h q (List.mem_cons_of_mem a hq)
      simp [List.filter_cons, ha, ih ht]
  simp [failedCount, hnil]

theorem isLockedOut_attempts (st : State) (ip path : String) (now : Int) :
    ((isLockedOut st ip path now).2).attempts = st.attempts := by
  cases hl : st.lockouts ⟨ip, path⟩ with
  | none => simp [isLockedOut, hl]
  | some u =>
    by_cases hlt : now < u <;>
      simp [isLockedOut, hl, hlt, removeLockout]

theorem isLockedOut_lockouts_none {st : State} {k : Key}
    (h : st.lockouts k = none) (ip path : String) (now : Int) :
    ((isLockedOut st ip path now).2).lockouts k = none := by
  cases hl : st.lockouts ⟨ip, path⟩ with
  | none => simp [isLockedOut, hl, h]
  | some u =>
    by_cases hlt : now < u
    · simp [isLockedOut, hl, hlt, h]
    · by_cases hk : k = (⟨ip, path⟩ : Key)
      · subst hk
        simp [isLockedOut, hl, hlt]
      · simp [isLockedOut, hl, hlt, removeLockout, hk, h]

theorem isAllowed_attempts_ne (st : State) (ip path : String) (now : Int)
    {k : Key} (hne : k ≠ (⟨ip, path⟩ : Key)) :
    ((isAllowed st ip path now).2).attempts k = st.attempts k := by
  simp only [isAllowed]
  split
  · split
    · simp [hne]
    · simp [hne]
  · simp [hne]

theorem isAllowed_lockouts_ne (st : State) (ip path : String) (now : Int)
    {k : Key} (hne : k ≠ (⟨ip, path⟩ : Key)) :
    ((isAllowed st ip path now).2).lockouts k = st.lockouts k := by
  simp only [isAllowed]
  split
  · split
    · simp [hne]
    · simp
  · simp

theorem isAllowed_noFail (st : State) (k : Key) (ip path : String)
    (now : Int) (h : NoFailState st k) :
    NoFailState ((isAllowed st ip path now).2) k := by
  obtain ⟨hfl, hlk⟩ := h
  by_cases hk : k = (⟨ip, path⟩ : Key)
  · subst hk
    have hsub : ∀ p ∈ inWindow (st.attempts ⟨ip, path⟩)
        (now - ((rateLimits path).getD (100, 60)).2), p.2 = false :=
      fun p hp => hfl p (List.mem_of_mem_filter hp)
    have hfc : failedCount (inWindow (st.attempts ⟨ip, path⟩)
        (now - ((rateLimits path).getD (100, 60)).2)) = 0 :=
      failedCount_of_noFail _ hsub
    by_cases hover : ((rateLimits path).getD (100, 60)).1
        ≤ (inWindow (st.attempts ⟨ip, path⟩)
            (now - ((rateLimits path).getD (100, 60)).2)).length
    · have heq : isAllowed st ip path now
          = (false, setAttempts st ⟨ip, path⟩
              (inWindow (st.attempts ⟨ip, path⟩)
                (now - ((rateLimits path).getD (100, 60)).2))) := by
        simp [isAllowed, hover, hfc]
      rw [heq]
      exact ⟨by simpa using hsub, by simp [hlk]⟩
    · have heq : isAllowed st ip path now
          = (true, setAttempts st ⟨ip, path⟩
              (inWindow (st.attempts ⟨ip, path⟩)
                (now - ((rateLimits path).getD (100, 60)).2)
                ++ [(now, false)])) := by
        simp [isAllowed, hover]
      rw [heq]
      refine ⟨?_, by simp [hlk]⟩
      intro p hp
      simp only [setAttempts_attempts_self, List.mem_append,
        List.mem_singleton] at hp
      cases hp with
      | inl hmem => exact hsub p hmem
      | inr hlast => rw [hlast]
  · exact ⟨by rw [isAllowed_attempts_ne st ip path now hk]; exact hfl,
      by rw [isAllowed_lockouts_ne st ip path now hk]; exact hlk⟩

theorem isLockedOut_noFail (st : State) (k : Key) (ip path : String)
    (now : Int) (h : NoFailState st k) :
    NoFailState ((isLockedOut st ip path now).2) k :=
  ⟨by rw [isLockedOut_attempts]; exact h.1,
   isLockedOut_lockouts_none h.2 ip path now⟩

theorem callStep_state (st : State) (ip path : String) (t : Int) :
    (callStep st ip path t).2 = st
    ∨ (callStep st ip path t).2 = (isLockedOut st ip path t).2
    ∨ (callStep st ip path t).2
        = (isAllowed (isLockedOut st ip path t).2 ip path t).2 := by
  unfold callStep
  cases hmw : rateLimits path with
  | none => exact Or.inl rfl
  | some mw =>
    by_cases h1 : (isLockedOut st ip path t).1 = true
    · exact Or.inr (Or.inl (by simp [h1]))
    · by_cases h2 : (isAllowed (isLockedOut st ip path t).2 ip path t).1
          = true
      · exact Or.inr (Or.inr (by simp [h1, h2]))
      · exact Or.inr (Or.inr (by simp [h1, h2]))

theorem callStep_noFail (st : State) (k : Key) (ip path : String) (t : Int)
    (h : NoFailState st k) : NoFailState ((callStep st ip path t).2) k := by
  rcases callStep_state st ip path t with heq | heq | heq <;> rw [heq]
  · exact h
  · exact isLockedOut_noFail st k ip path t h
  · exact isAllowed_noFail _ k ip path t (isLockedOut_noFail st k ip path t h)

theorem recordAuthFailure_attempts_ne (st : State) (ip path : String)
    (now : Int) {k : Key} (hne : k ≠ (⟨ip, path⟩ : Key)) :
    (recordAuthFailure st ip path now).attempts k = st.attempts k := by
  simp only [recordAuthFailure]
  split
  · rfl
  · split
    · simp [hne]
    · simp [hne]

theorem recordAuthFailure_lockouts_ne (st : State) (ip path : String)
    (now : Int) {k : Key} (hne : k ≠ (⟨ip, path⟩ : Key)) :
    (recordAuthFailure st ip path now).lockouts k = st.lockouts k := by
  simp only [recordAuthFailure]
  split
  · rfl
  · split
    · simp [hne]
    · simp

theorem recordAuthFailure_noFail_ne (st : State) (ip path : String)
    (now : Int) {k : Key} (hne : k ≠ (⟨ip, path⟩ : Key))
    (h : NoFailState st k) :
    NoFailState (recordAuthFailure st ip path now) k :=
  ⟨by rw [recordAuthFailure_attempts_ne st ip path now hne]; exact h.1,
   by rw [recordAuthFailure_lockouts_ne st ip path now hne]; exact h.2⟩

theorem applyOps_noFail (k : Key) :
    ∀ (ops : List Op) (st : State), NoFailState st k →
      (∀ ip path t, Op.fail ip path t ∈ ops →
        (⟨ip, path⟩ : Key) ≠ k) →
      NoFailState (applyOps st ops) k := by
  intro ops
  induction ops with
  | nil => exact fun st h _ => h
  | cons op rest ih =>
    intro st h hfail
    have hstep : NoFailState (applyOp st op) k := by
      cases op with
      | call ip path t => exact callStep_noFail st k ip path t h
      | fail ip path t =>
        exact recordAuthFailure_noFail_ne st ip path t
          (Ne.symm (hfail ip path t (by simp))) h
    exact ih _ hstep (fun ip path t hm => hfail ip path t (by simp [hm]))

theorem callStep_limited_of_noFail (st : State) (ip path : String) (t : Int)
    (mw : Nat × Int) (hmw : rateLimits path = some mw)
    (h : NoFailState st ⟨ip, path⟩)
    (hover : mw.1 ≤ (inWindow (st.attempts ⟨ip, path⟩)
        (t - mw.2)).length) :
    (callStep st ip path t).1 = Decision.limited
    ∧ ((callStep st ip path t).2).lockouts ⟨ip, path⟩ = none := by
  obtain ⟨hfl, hlk⟩ := h
  have hlock : isLockedOut st ip path t = (false, st) := by
    simp [isLockedOut, hlk]
  have hfc : failedCount (inWindow (st.attempts ⟨ip, path⟩) (t - mw.2)) = 0 :=
    failedCount_of_noFail _ (fun p hp => hfl p (List.mem_of_mem_filter hp))
  have hal : isAllowed st ip path t
      = (false, setAttempts st ⟨ip, path⟩
          (inWindow (st.attempts ⟨ip, path⟩) (t - mw.2))) := by
    simp [isAllowed, hmw, hover, hfc]
  constructor
  · simp [callStep, hmw, hlock, hal]
  · simp [callStep, hmw, hlock, hal, hlk]

end AuthRateLimit

/-- C9: a lockout entry can only appear for a key with at least 3
failed-flagged records: starting from a key with no failure flags and no
lockout entry, any sequence of requests (to any keys) and failure reports (to
other keys) preserves that situation — the key never acquires a lockout
entry — and on the resulting state a request finding the key at or over its
window limit is rejected by the window check (the `limited` outcome, the
plain 429) while still acquiring no lockout entry. -/
theorem C9_lockout_requires_failures :
    ∀ (st : AuthRateLimit.State) (k : AuthRateLimit.Key)
      (ops : List AuthRateLimit.Op),
      AuthRateLimit.NoFailState st k →
      (∀ ip path t, AuthRateLimit.Op.fail ip path t ∈ ops →
        (⟨ip, path⟩ : AuthRateLimit.Key) ≠ k) →
      AuthRateLimit.NoFailState (AuthRateLimit.applyOps st ops) k
      ∧
      (∀ (ip path : String) (t : Int) (mw : Nat × Int),
        AuthRateLimit.rateLimits path = some mw →
        (⟨ip, path⟩ : AuthRateLimit.Key) = k →
        mw.1 ≤ (AuthRateLimit.inWindow
            ((AuthRateLimit.applyOps st ops).attempts k) (t - mw.2)).length →
        (AuthRateLimit.callStep (AuthRateLimit.applyOps st ops) ip path t).1
            = AuthRateLimit.Decision.limited
          ∧ (AuthRateLimit.callStep (AuthRateLimit.applyOps st ops)
              ip path t).2.lockouts k = none) := by
  intro st k ops h hfail
  have hfin := AuthRateLimit.applyOps_noFail k ops st h hfail
  refine ⟨hfin, ?_⟩
  intro ip path t mw hmw hk hover
  subst hk
  exact AuthRateLimit.callStep_limited_of_noFail _ ip path t mw hmw hfin hover

/-- Witness for C9: seven plain login requests (no failure report at all)
from one client at instants 0..6 — two more than the login limit of 5 — leave
the key with unflagged records and no lockout entry, and an eighth request at
instant 7 is rejected by the window check while still acquiring no lockout. -/
theorem C9_lockout_requires_failures_witness :
    AuthRateLimit.NoFailState
      (AuthRateLimit.applyOps AuthRateLimit.initState
        [AuthRateLimit.Op.call "ip" "/auth/login" 0,
         AuthRateLimit.Op.call "ip" "/auth/login" 1,
         AuthRateLimit.Op.call "ip" "/auth/login" 2,
         AuthRateLimit.Op.call "ip" "/auth/login" 3,
         AuthRateLimit.Op.call "ip" "/auth/login" 4,
         AuthRateLimit.Op.call "ip" "/auth/login" 5,
         AuthRateLimit.Op.call "ip" "/auth/login" 6])
      AuthRateLimit.loginKey
    ∧
    (AuthRateLimit.callStep
        (AuthRateLimit.applyOps AuthRateLimit.initState
          [AuthRateLimit.Op.call "ip" "/auth/login" 0,
           AuthRateLimit.Op.call "ip" "/auth/login" 1,
           AuthRateLimit.Op.call "ip" "/auth/login" 2,
           AuthRateLimit.Op.call "ip" "/auth/login" 3,
           AuthRateLimit.Op.call "ip" "/auth/login" 4,
           AuthRateLimit.Op.call "ip" "/auth/login" 5,
           AuthRateLimit.Op.call "ip" "/auth/login" 6])
        "ip" "/auth/login" 7).1 = AuthRateLimit.Decision.limited
    ∧
    (AuthRateLimit.callStep
        (AuthRateLimit.applyOps AuthRateLimit.initState
          [AuthRateLimit.Op.call "ip" "/auth/login" 0,
           AuthRateLimit.Op.call "ip" "/auth/login" 1,
           AuthRateLimit.Op.call "ip" "/auth/login" 2,
           AuthRateLimit.Op.call "ip" "/auth/login" 3,
           AuthRateLimit.Op.call "ip" "/auth/login" 4,
           AuthRateLimit.Op.call "ip" "/auth/login" 5,
           AuthRateLimit.Op.call "ip" "/auth/login" 6])
        "ip" "/auth/login" 7).2.lockouts AuthRateLimit.loginKey = none := by
  have h := C9_lockout_requires_failures AuthRateLimit.initState
    AuthRateLimit.loginKey
    [AuthRateLimit.Op.call "ip" "/auth/login" 0,
     AuthRateLimit.Op.call "ip" "/auth/login" 1,
     AuthRateLimit.Op.call "ip" "/auth/login" 2,
     AuthRateLimit.Op.call "ip" "/auth/login" 3,
     AuthRateLimit.Op.call "ip" "/auth/login" 4,
     AuthRateLimit.Op.call "ip" "/auth/login" 5,
     AuthRateLimit.Op.call "ip" "/auth/login" 6]
    ⟨by simp [AuthRateLimit.initState], rfl⟩
    (by intro ip path t hm; simp at hm)
  exact ⟨h.1,
    (h.2 "ip" "/auth/login" 7 (5, 900) (by decide) rfl (by decide)).1,
    (h.2 "ip" "/auth/login" 7 (5, 900) (by decide) rfl (by decide)).2⟩
